import Mathlib

/-!
Verification development for the session-lifecycle and transcript-persistence
core of the vooshRAG backend.

The embedding models:
- the Ephemeral Session Store (`sessionService.js`, backed by Redis lists:
  `storeMessage` does `lPush`, `getSessionHistory` does `lRange` + `reverse`,
  `clearSession` does `del`) as a total function from session id to the stored
  message list in Redis order (newest first); an absent/expired session reads
  as the empty list, exactly as `lRange` on a missing key. TTL bookkeeping
  (`expire`) is not modelled — no claim here concerns expiry timing.
- the Transcript Archiver (`transcriptService.js`, backed by PostgreSQL table
  `chat_sessions` from the init script) as a list of rows in insertion order.
  The table declares `session_id VARCHAR(255) UNIQUE NOT NULL`, so an INSERT
  whose `session_id` already occurs fails with a unique-constraint error; the
  model's insert reproduces that check. External database unavailability is
  modelled by a boolean oracle (`dbOk`): when false, the write fails the way an
  unreachable PostgreSQL would. `created_at`/`updated_at` (filled by column
  defaults, never read by the services under verification) are omitted.
- the Session Lifecycle Coordinator call sites: the socket `clear-session`
  handler, the HTTP `DELETE /sessions/:sessionId` route, the socket
  `cleanup-sessions` bulk handler, and the socket `disconnect` handler
  (`socketService.js`, `sessionRoute.js`). JavaScript `try/catch` becomes
  explicit propagation: a thrown archive or clear error reaches the handler's
  `catch`, which emits the handler's single error response. Clearing the Redis
  key can itself fail (Redis unreachable); that is a second boolean oracle
  (`clearOk`).

Timestamps are integer epoch milliseconds (`Date.now()` / `getTime()`), so an
`Int`; `Math.floor(x / 1000)` on an integer millisecond difference is `Int.fdiv
x 1000` (floor division, rounding toward negative infinity, exactly like
`Math.floor`). JavaScript string `.length` is modelled by `String.length`.
Fresh identifiers (`uuidv4()`) are supplied as explicit parameters.
-/

namespace VooshRAG

/-- A chat message as built by `storeMessage` in `sessionService.js`:
`{ id: uuidv4(), userQuery, botResponse, timestamp }`. -/
structure Message where
  id : String
  userQuery : String
  botResponse : String
  timestamp : Int
deriving Repr, DecidableEq

/-- The Ephemeral Session Store: for each session id, the Redis list at key
`session:<id>` in Redis order (newest first, because `storeMessage` uses
`lPush`). A session with no key reads as `[]`. -/
abbrev Store : Type := String → List Message

/-- Embeds `storeMessage(sessionId, userQuery, botResponse, timestamp = Date.now())`
from `sessionService.js`: builds the message and `lPush`es it onto the
session's list. The generated uuid and the default-filled timestamp are
explicit parameters. Returns the message together with the updated store. -/
def storeMessage (sessionId userQuery botResponse : String) (timestamp : Int)
    (msgId : String) (store : Store) : Message × Store :=
  let message : Message :=
    { id := msgId, userQuery := userQuery, botResponse := botResponse,
      timestamp := timestamp }
  (message, fun k => if k = sessionId then message :: store k else store k)

/-- Embeds `getSessionHistory(sessionId)` from `sessionService.js`: `lRange(key, 0,
-1)` reads the whole list (newest first) and `.reverse()` puts it in
chronological order. -/
def getSessionHistory (sessionId : String) (store : Store) : List Message :=
  (store sessionId).reverse

/-- Embeds `clearSession(sessionId)` from `sessionService.js`: `del` on the session
key; deleting a missing key is a no-op. -/
def clearSession (sessionId : String) (store : Store) : Store :=
  fun k => if k = sessionId then [] else store k

/-- A row of the `chat_sessions` table (init script `initializeDatabase`),
with the columns `saveTranscript` writes. `created_at`/`updated_at` are filled
by column defaults and never read by the services, so they are omitted. -/
structure TranscriptRow where
  id : String
  session_id : String
  user_messages : List String
  bot_responses : List String
  message_count : Nat
  started_at : Int
  ended_at : Int
  duration_seconds : Int
  total_characters : Nat
deriving Repr, DecidableEq

/-- The durable store: `chat_sessions` rows in insertion order. -/
abbrev TranscriptDB : Type := List TranscriptRow

/-- Errors a PostgreSQL call can raise in this model: the database being
unreachable, a violated `UNIQUE` constraint, or (per the spec taxonomy) an
invalid argument. -/
inductive ArchiveError where
  | storeUnavailable
  | uniqueViolation
  | invalidArgument
deriving Repr, DecidableEq

/-- The summary object `saveTranscript` returns on success (its `success`
field, always `true` there, is dropped). -/
structure TranscriptSummary where
  transcriptId : String
  sessionId : String
  messageCount : Nat
  totalCharacters : Nat
  durationSeconds : Int
  savedAt : Int
deriving Repr, DecidableEq

/-- The `totalCharacters` value from `saveTranscript`: the reduce summing
`userQuery.length + botResponse.length` over the messages, starting at 0. -/
def totalCharactersOf (messages : List Message) : Nat :=
  messages.foldl (fun total m => total + m.userQuery.length + m.botResponse.length) 0

/-- The `sessionStartTime` value from `saveTranscript`: `startedAt || (messages.length >
0 ? new Date(messages[0].timestamp) : endedAt)`. -/
def sessionStartTimeOf (startedAt : Option Int) (messages : List Message)
    (endedAt : Int) : Int :=
  match startedAt with
  | some t => t
  | none =>
    match messages with
    | m :: _ => m.timestamp
    | [] => endedAt

/-- The `durationSeconds` value from `saveTranscript`: `Math.floor((endedAt -
sessionStartTime) / 1000)` on epoch milliseconds. -/
def durationSecondsOf (startedAt : Option Int) (messages : List Message)
    (endedAt : Int) : Int :=
  Int.fdiv (endedAt - sessionStartTimeOf startedAt messages endedAt) 1000

/-- The `chat_sessions` row `saveTranscript` hands to its INSERT, values in
column order. -/
def transcriptRowOf (sessionId : String) (messages : List Message)
    (startedAt : Option Int) (endedAt : Int) (transcriptId : String) :
    TranscriptRow :=
  { id := transcriptId, session_id := sessionId,
    user_messages := messages.map (fun m => m.userQuery),
    bot_responses := messages.map (fun m => m.botResponse),
    message_count := messages.length,
    started_at := sessionStartTimeOf startedAt messages endedAt,
    ended_at := endedAt,
    duration_seconds := durationSecondsOf startedAt messages endedAt,
    total_characters := totalCharactersOf messages }

/-- The object `saveTranscript` returns on success (minus its constant
`success: true` field). -/
def transcriptSummaryOf (sessionId : String) (messages : List Message)
    (startedAt : Option Int) (endedAt : Int) (transcriptId : String) :
    TranscriptSummary :=
  { transcriptId := transcriptId, sessionId := sessionId,
    messageCount := messages.length,
    totalCharacters := totalCharactersOf messages,
    durationSeconds := durationSecondsOf startedAt messages endedAt,
    savedAt := endedAt }

/-- Embeds `saveTranscript(sessionId, messages, startedAt = null, endedAt = new
Date())` from `transcriptService.js`. Derived statistics follow the source
(see the helper definitions above). The INSERT into `chat_sessions` fails when
the database is unreachable (`dbOk = false`) or when the table's `UNIQUE`
constraint on `session_id` is violated; the source rethrows any such error. On
success exactly one row is appended and the summary returned. -/
def saveTranscript (dbOk : Bool) (sessionId : String) (messages : List Message)
    (startedAt : Option Int) (endedAt : Int) (transcriptId : String)
    (db : TranscriptDB) : Except ArchiveError (TranscriptSummary × TranscriptDB) :=
  if dbOk = false then
    .error .storeUnavailable
  else if db.any (fun r => r.session_id == sessionId) then
    .error .uniqueViolation
  else
    .ok (transcriptSummaryOf sessionId messages startedAt endedAt transcriptId,
         db ++ [transcriptRowOf sessionId messages startedAt endedAt transcriptId])

/-- What the socket `clear-session` handler emits: either a `session-cleared`
event (with the transcript fields it sets when a transcript was saved) or a
single `error` event from the handler's `catch` block. -/
inductive SocketClearResult where
  | sessionCleared (transcriptSaved : Bool) (transcriptId : Option String)
      (messageCount : Nat) (durationSeconds : Option Int)
  | errorEvent (message : String)
deriving Repr, DecidableEq

/-- The socket `clear-session` handler (`socketService.js`): read the history;
if non-empty, `saveTranscript` with `startedAt` = first message's timestamp and
`endedAt` = now; then `clearSession`; emit `session-cleared` carrying
transcript info when one was saved, else `transcriptSaved:false,
messageCount:0`. Any thrown error (archive or clear) lands in the `catch`,
which emits `error {message: 'Failed to clear session'}` — at that point the
steps already awaited keep their effects. `now` is `new Date()`, `transcriptId`
the uuid `saveTranscript` would draw. -/
def clearSessionHandler (dbOk clearOk : Bool) (now : Int) (transcriptId : String)
    (sessionId : String) (store : Store) (db : TranscriptDB) :
    Store × TranscriptDB × SocketClearResult :=
  match getSessionHistory sessionId store with
  | [] =>
    if clearOk then
      (clearSession sessionId store, db, .sessionCleared false none 0 none)
    else
      (store, db, .errorEvent "Failed to clear session")
  | first :: rest =>
    match saveTranscript dbOk sessionId (first :: rest) (some first.timestamp)
        now transcriptId db with
    | .error _ => (store, db, .errorEvent "Failed to clear session")
    | .ok (tr, db2) =>
      if clearOk then
        (clearSession sessionId store, db2,
         .sessionCleared true (some tr.transcriptId) tr.messageCount
           (some tr.durationSeconds))
      else
        (store, db2, .errorEvent "Failed to clear session")

/-- What `DELETE /sessions/:sessionId` (`sessionRoute.js`) responds: the 200
payload's `data` fields, or the 500 body from the route's `catch`. -/
inductive HttpClearResult where
  | ok (transcriptSaved : Bool) (transcriptId : Option String)
      (messageCount : Nat) (durationSeconds : Option Int)
      (totalCharacters : Option Nat) (savedAt : Option Int)
  | serverError (message : String)
deriving Repr, DecidableEq

/-- The `DELETE /sessions/:sessionId` route (`sessionRoute.js`): same protocol
as the socket handler; on success a 200 response whose `data` carries the
transcript fields (or `transcriptSaved:false, messageCount:0`), on any thrown
error a 500 `{message: 'Error clearing session'}`. -/
def deleteSessionRoute (dbOk clearOk : Bool) (now : Int) (transcriptId : String)
    (sessionId : String) (store : Store) (db : TranscriptDB) :
    Store × TranscriptDB × HttpClearResult :=
  match getSessionHistory sessionId store with
  | [] =>
    if clearOk then
      (clearSession sessionId store, db, .ok false none 0 none none none)
    else
      (store, db, .serverError "Error clearing session")
  | first :: rest =>
    match saveTranscript dbOk sessionId (first :: rest) (some first.timestamp)
        now transcriptId db with
    | .error _ => (store, db, .serverError "Error clearing session")
    | .ok (tr, db2) =>
      if clearOk then
        (clearSession sessionId store, db2,
         .ok true (some tr.transcriptId) tr.messageCount
           (some tr.durationSeconds) (some tr.totalCharacters) (some tr.savedAt))
      else
        (store, db2, .serverError "Error clearing session")

/-- The socket `disconnect` handler (`socketService.js`) for a bound session
id: same read–archive–clear sequence inside a `try` whose `catch` only logs,
so the result is just the final stores. -/
def disconnectHandler (dbOk clearOk : Bool) (now : Int) (transcriptId : String)
    (sessionId : String) (store : Store) (db : TranscriptDB) :
    Store × TranscriptDB :=
  match getSessionHistory sessionId store with
  | [] =>
    if clearOk then (clearSession sessionId store, db) else (store, db)
  | first :: rest =>
    match saveTranscript dbOk sessionId (first :: rest) (some first.timestamp)
        now transcriptId db with
    | .error _ => (store, db)
    | .ok (_, db2) =>
      if clearOk then (clearSession sessionId store, db2) else (store, db2)

/-- The socket `cleanup-sessions` handler (`socketService.js`): for each id in
the request, inside a per-id `try/catch`, read the history, archive it if
non-empty, then clear; a caught per-id error is only logged and the loop moves
on. Oracles and fresh transcript ids are per session id. Besides the final
stores, the result records, in order, each processed id with whether its
iteration completed without a caught error. -/
def cleanupSessionsHandler (dbOk clearOk : String → Bool) (tid : String → String)
    (now : Int) (sessions : List String) (store : Store) (db : TranscriptDB) :
    Store × TranscriptDB × List (String × Bool) :=
  match sessions with
  | [] => (store, db, [])
  | sessionId :: rest =>
    let step : Store × TranscriptDB × Bool :=
      match getSessionHistory sessionId store with
      | [] =>
        if clearOk sessionId then (clearSession sessionId store, db, true)
        else (store, db, false)
      | first :: tail =>
        match saveTranscript (dbOk sessionId) sessionId (first :: tail)
            (some first.timestamp) now (tid sessionId) db with
        | .error _ => (store, db, false)
        | .ok (_, db2) =>
          if clearOk sessionId then (clearSession sessionId store, db2, true)
          else (store, db2, false)
    let next := cleanupSessionsHandler dbOk clearOk tid now rest step.1 step.2.1
    (next.1, next.2.1, (sessionId, step.2.2) :: next.2.2)

/-- A row as projected by `getAllTranscripts`' SELECT (everything but the
message arrays; `created_at` is not modelled, see the header). -/
structure TranscriptListItem where
  id : String
  sessionId : String
  messageCount : Nat
  startedAt : Int
  endedAt : Int
  durationSeconds : Int
  totalCharacters : Nat
deriving Repr, DecidableEq

/-- Insert a row into a list kept in `ended_at`-descending order. -/
def insertByEndedAtDesc (r : TranscriptRow) : List TranscriptRow → List TranscriptRow
  | [] => [r]
  | x :: xs =>
    if x.ended_at < r.ended_at then r :: x :: xs else x :: insertByEndedAtDesc r xs

/-- The `ORDER BY ended_at DESC` ordering over the stored rows. -/
def sortByEndedAtDesc (db : TranscriptDB) : List TranscriptRow :=
  db.foldr insertByEndedAtDesc []

/-- Embeds `getAllTranscripts(limit = 50, offset = 0)` from `transcriptService.js`:
runs the SELECT with `ORDER BY ended_at DESC LIMIT $1 OFFSET $2` and maps the
rows to summaries. The function itself performs no validation of `limit`; it
only fails when the database is unreachable (rethrown by its `catch`). -/
def getAllTranscripts (dbOk : Bool) (limit offset : Nat) (db : TranscriptDB) :
    Except ArchiveError (List TranscriptListItem) :=
  if dbOk = false then
    .error .storeUnavailable
  else
    .ok ((((sortByEndedAtDesc db).drop offset).take limit).map (fun r =>
      { id := r.id, sessionId := r.session_id, messageCount := r.message_count,
        startedAt := r.started_at, endedAt := r.ended_at,
        durationSeconds := r.duration_seconds,
        totalCharacters := r.total_characters }))

/-- Response of `GET /transcripts` (`sessionRoute.js`): 400 when the parsed
`limit` exceeds 100, a 200 page otherwise, 500 from the `catch`. -/
inductive TranscriptsRouteResult where
  | badRequest (message : String)
  | okPage (transcripts : List TranscriptListItem) (count : Nat)
      (limit offset : Nat)
  | serverError (message : String)
deriving Repr, DecidableEq

/-- The `GET /transcripts` route (`sessionRoute.js`): `limit` and `offset`
arrive already parsed with their `|| 50` / `|| 0` defaults applied; the route
rejects `limit > 100` with 400 `'Limit cannot exceed 100'` before calling
`getAllTranscripts`, and turns a thrown error into a 500. -/
def getTranscriptsRoute (dbOk : Bool) (limit offset : Nat) (db : TranscriptDB) :
    TranscriptsRouteResult :=
  if limit > 100 then
    .badRequest "Limit cannot exceed 100"
  else
    match getAllTranscripts dbOk limit offset db with
    | .error _ => .serverError "Error retrieving transcripts"
    | .ok ts => .okPage ts ts.length limit offset

/-- An append request as issued by callers of `storeMessage`: the drawn uuid,
the user query, the bot response, and the timestamp. -/
def StoredEntry : Type := String × String × String × Int

/-- The message `storeMessage` builds from an append request. -/
def mkStoredMessage (entry : StoredEntry) : Message :=
  { id := entry.1, userQuery := entry.2.1, botResponse := entry.2.2.1,
    timestamp := entry.2.2.2 }

/-- A sequence of `storeMessage` calls against one session, in order. -/
def appendAll (sessionId : String) (entries : List StoredEntry)
    (store : Store) : Store :=
  entries.foldl
    (fun st e => (storeMessage sessionId e.2.1 e.2.2.1 e.2.2.2 e.1 st).2) store

/-- Sample message used by the concrete witnesses. -/
def msgHi : Message :=
  { id := "m1", userQuery := "hi", botResponse := "hello!", timestamp := 1000 }

/-- Sample store holding one message in session `S1` and nothing in any other
session (the Redis list is newest-first; with one message the orders agree). -/
def demoStore : Store := fun k => if k = "S1" then [msgHi] else []

/-- First termination of `S1` against an empty transcript table: the archive
succeeds and the session is cleared. -/
def runC2first : Store × TranscriptDB × SocketClearResult :=
  clearSessionHandler true true 5000 "T1" "S1" demoStore []

/-- Re-use of `S1` after the first termination: one new message appended. -/
def demoStoreReused : Store :=
  (storeMessage "S1" "again" "indeed" 6000 "m2" runC2first.1).2

/-- Second termination of the re-used `S1` against the table already holding
the first transcript row. -/
def runC2second : Store × TranscriptDB × SocketClearResult :=
  clearSessionHandler true true 9000 "T2" "S1" demoStoreReused runC2first.2.1

/-- Archive oracle for the bulk-cleanup witness: the database write fails for
session `S1` and succeeds for every other session. -/
def demoDbOk : String → Bool := fun s => !(s == "S1")

/-- Transcript-id supply for the bulk-cleanup witness. -/
def demoTid : String → String := fun s => String.append s "-T"

/-- Reading a session right after clearing it yields the empty sequence. -/
lemma getSessionHistory_clearSession (sessionId : String) (store : Store) :
    getSessionHistory sessionId (clearSession sessionId store) = [] := by
  simp [getSessionHistory, clearSession]

/-- Clearing one session leaves every other session's history unchanged. -/
lemma getSessionHistory_clearSession_other (s sessionId : String) (store : Store)
    (h : s ≠ sessionId) :
    getSessionHistory s (clearSession sessionId store) = getSessionHistory s store := by
  simp [getSessionHistory, clearSession, h]

/-- With the database unreachable, `saveTranscript` fails and writes nothing. -/
lemma saveTranscript_unavailable (sessionId : String) (messages : List Message)
    (startedAt : Option Int) (endedAt : Int) (transcriptId : String)
    (db : TranscriptDB) :
    saveTranscript false sessionId messages startedAt endedAt transcriptId db
      = .error .storeUnavailable := rfl

/-- With the database reachable and no stored row for this session id,
`saveTranscript` appends exactly the computed row and returns the summary. -/
lemma saveTranscript_ok (sessionId : String) (messages : List Message)
    (startedAt : Option Int) (endedAt : Int) (transcriptId : String)
    (db : TranscriptDB)
    (hfresh : db.any (fun r => r.session_id == sessionId) = false) :
    saveTranscript true sessionId messages startedAt endedAt transcriptId db
      = .ok (transcriptSummaryOf sessionId messages startedAt endedAt transcriptId,
             db ++ [transcriptRowOf sessionId messages startedAt endedAt transcriptId]) := by
  simp [saveTranscript, hfresh]

/-- The character-count reduce, generalized over its accumulator. -/
lemma totalCharacters_foldl (messages : List Message) (n : Nat) :
    messages.foldl (fun total m => total + m.userQuery.length + m.botResponse.length) n
      = n + (messages.map (fun m => m.userQuery.length + m.botResponse.length)).sum := by
  induction messages generalizing n with
  | nil => simp
  | cons m t ih => simp [ih]; omega

/-- The `totalCharacters` reduce equals the sum over all messages of the lengths of the user
query and the bot response. -/
lemma totalCharactersOf_eq_sum (messages : List Message) :
    totalCharactersOf messages
      = (messages.map (fun m => m.userQuery.length + m.botResponse.length)).sum := by
  simpa using totalCharacters_foldl messages 0

/-- Storage contents after a sequence of appends: the new messages sit on top
of the previous list in reverse (newest-first) order, exactly as `lPush`
leaves them. -/
lemma appendAll_apply (sessionId : String) (entries : List StoredEntry)
    (store : Store) :
    appendAll sessionId entries store sessionId
      = (entries.map mkStoredMessage).reverse ++ store sessionId := by
  induction entries generalizing store with
  | nil => simp [appendAll]
  | cons e t ih =>
    have hstep : appendAll sessionId (e :: t) store
        = appendAll sessionId t
            ((storeMessage sessionId e.2.1 e.2.2.1 e.2.2.2 e.1 store).2) := by
      simp [appendAll]
    rw [hstep, ih]
    simp [storeMessage, mkStoredMessage]

/-- C4: for every sequence of N appends (`storeMessage`) to a session followed
by a read (`getSessionHistory`), the read returns exactly N messages in
chronological append order, even though the store keeps them prepended
(newest first). -/
theorem claim_C4_append_read_chronological (sessionId : String)
    (entries : List StoredEntry) (store : Store)
    (hempty : getSessionHistory sessionId store = []) :
    getSessionHistory sessionId (appendAll sessionId entries store)
      = entries.map mkStoredMessage ∧
    (getSessionHistory sessionId (appendAll sessionId entries store)).length
      = entries.length := by
  have hs : store sessionId = [] := by
    simpa [getSessionHistory] using hempty
  constructor
  · simp [getSessionHistory, appendAll_apply, hs]
  · simp [getSessionHistory, appendAll_apply, hs]

/-- Concrete run of C4: two appends to a fresh session read back as the two
messages in append order. -/
theorem claim_C4_witness :
    getSessionHistory "S1" (fun _ => []) = [] ∧
    (getSessionHistory "S1"
        (appendAll "S1"
          [("m1", "hi", "hello!", (1000 : Int)), ("m2", "bye", "goodbye!", (2000 : Int))]
          (fun _ => []))
      = [("m1", "hi", "hello!", (1000 : Int)),
         ("m2", "bye", "goodbye!", (2000 : Int))].map mkStoredMessage ∧
    (getSessionHistory "S1"
        (appendAll "S1"
          [("m1", "hi", "hello!", (1000 : Int)), ("m2", "bye", "goodbye!", (2000 : Int))]
          (fun _ => []))).length
      = 2) :=
  ⟨rfl, claim_C4_append_read_chronological "S1"
    [("m1", "hi", "hello!", (1000 : Int)), ("m2", "bye", "goodbye!", (2000 : Int))]
    (fun _ => []) rfl⟩

/-- C5: terminating a session whose history is empty writes no transcript row,
still runs the clear step, and reports `transcriptSaved:false, messageCount:0`
to the trigger origin — both on the socket `clear-session` handler and on the
`DELETE /sessions/:sessionId` route, for either state of the database. -/
theorem claim_C5_empty_termination (dbOk : Bool) (now : Int)
    (transcriptId sessionId : String) (store : Store) (db : TranscriptDB)
    (hempty : getSessionHistory sessionId store = []) :
    clearSessionHandler dbOk true now transcriptId sessionId store db
      = (clearSession sessionId store, db, .sessionCleared false none 0 none) ∧
    deleteSessionRoute dbOk true now transcriptId sessionId store db
      = (clearSession sessionId store, db, .ok false none 0 none none none) ∧
    getSessionHistory sessionId (clearSession sessionId store) = [] := by
  refine ⟨?_, ?_, getSessionHistory_clearSession sessionId store⟩
  · simp [clearSessionHandler, hempty]
  · simp [deleteSessionRoute, hempty]

/-- Concrete run of C5: terminating the untouched session `S2` saves nothing,
clears, and reports `transcriptSaved:false, messageCount:0`. -/
theorem claim_C5_witness :
    getSessionHistory "S2" demoStore = [] ∧
    (clearSessionHandler true true 5000 "T1" "S2" demoStore []
       = (clearSession "S2" demoStore, [], .sessionCleared false none 0 none) ∧
     deleteSessionRoute true true 5000 "T1" "S2" demoStore []
       = (clearSession "S2" demoStore, [], .ok false none 0 none none none) ∧
     getSessionHistory "S2" (clearSession "S2" demoStore) = []) :=
  ⟨by decide, claim_C5_empty_termination true 5000 "T1" "S2" demoStore [] (by decide)⟩

/-- C3: terminating a session with at least one message (database reachable,
no prior row for the id, clear succeeding) appends exactly one transcript row;
its `message_count` is the number of archived messages, its
`total_characters` the sum of the `userQuery` and `botResponse` lengths over
all messages, its `duration_seconds` the floor of the milliseconds between the
first message's timestamp and the termination time divided by 1000; and a
subsequent read of the session returns the empty sequence. The emitted
`session-cleared` event carries the matching transcript fields. -/
theorem claim_C3_nonempty_termination (now : Int) (transcriptId sessionId : String)
    (store : Store) (db : TranscriptDB) (first : Message) (rest : List Message)
    (hhist : getSessionHistory sessionId store = first :: rest)
    (hfresh : db.any (fun r => r.session_id == sessionId) = false) :
    (clearSessionHandler true true now transcriptId sessionId store db).2.1
      = db ++ [transcriptRowOf sessionId (first :: rest) (some first.timestamp) now transcriptId] ∧
    (transcriptRowOf sessionId (first :: rest) (some first.timestamp) now transcriptId).message_count
      = (first :: rest).length ∧
    (transcriptRowOf sessionId (first :: rest) (some first.timestamp) now transcriptId).total_characters
      = ((first :: rest).map (fun m => m.userQuery.length + m.botResponse.length)).sum ∧
    (transcriptRowOf sessionId (first :: rest) (some first.timestamp) now transcriptId).duration_seconds
      = Int.fdiv (now - first.timestamp) 1000 ∧
    getSessionHistory sessionId
      (clearSessionHandler true true now transcriptId sessionId store db).1 = [] ∧
    (clearSessionHandler true true now transcriptId sessionId store db).2.2
      = .sessionCleared true (some transcriptId) (first :: rest).length
          (some (Int.fdiv (now - first.timestamp) 1000)) := by
  have hsave := saveTranscript_ok sessionId (first :: rest) (some first.timestamp)
    now transcriptId db hfresh
  have hrun : clearSessionHandler true true now transcriptId sessionId store db
      = (clearSession sessionId store,
         db ++ [transcriptRowOf sessionId (first :: rest) (some first.timestamp) now transcriptId],
         .sessionCleared true (some transcriptId) (first :: rest).length
           (some (durationSecondsOf (some first.timestamp) (first :: rest) now))) := by
    simp [clearSessionHandler, hhist, hsave, transcriptSummaryOf]
  refine ⟨?_, ?_, ?_, ?_, ?_, ?_⟩
  · rw [hrun]
  · rfl
  · exact totalCharactersOf_eq_sum (first :: rest)
  · simp [transcriptRowOf, durationSecondsOf, sessionStartTimeOf]
  · rw [hrun]; exact getSessionHistory_clearSession sessionId store
  · rw [hrun]; simp [durationSecondsOf, sessionStartTimeOf]

/-- Concrete run of C3: terminating `S1` holding the single message
`("hi","hello!")` at time 5000 writes one row with one message, 8 characters
and duration 4 seconds, and afterward the session reads empty. -/
theorem claim_C3_witness :
    getSessionHistory "S1" demoStore = [msgHi] ∧
    List.any ([] : TranscriptDB) (fun r => r.session_id == "S1") = false ∧
    ((clearSessionHandler true true 5000 "T1" "S1" demoStore []).2.1
       = [] ++ [transcriptRowOf "S1" [msgHi] (some msgHi.timestamp) 5000 "T1"] ∧
     (transcriptRowOf "S1" [msgHi] (some msgHi.timestamp) 5000 "T1").message_count
       = [msgHi].length ∧
     (transcriptRowOf "S1" [msgHi] (some msgHi.timestamp) 5000 "T1").total_characters
       = ([msgHi].map (fun m => m.userQuery.length + m.botResponse.length)).sum ∧
     (transcriptRowOf "S1" [msgHi] (some msgHi.timestamp) 5000 "T1").duration_seconds
       = Int.fdiv (5000 - msgHi.timestamp) 1000 ∧
     getSessionHistory "S1" (clearSessionHandler true true 5000 "T1" "S1" demoStore []).1 = [] ∧
     (clearSessionHandler true true 5000 "T1" "S1" demoStore []).2.2
       = .sessionCleared true (some "T1") [msgHi].length
           (some (Int.fdiv (5000 - msgHi.timestamp) 1000))) ∧
    (transcriptRowOf "S1" [msgHi] (some msgHi.timestamp) 5000 "T1").total_characters = 8 ∧
    (transcriptRowOf "S1" [msgHi] (some msgHi.timestamp) 5000 "T1").duration_seconds = 4 :=
  ⟨by decide, by decide,
   claim_C3_nonempty_termination 5000 "T1" "S1" demoStore [] msgHi [] (by decide) (by decide),
   by decide, by decide⟩

/-- C1: when the archive write fails during a non-empty termination, the clear
step is not executed: the ephemeral store and the transcript table are both
left unchanged, a subsequent read returns the same messages, and the outcome
is the trigger's failure report — across all four trigger sites (socket
`clear-session`, `DELETE /sessions/:sessionId`, socket `disconnect`, and
bulk `cleanup-sessions` on that one id). -/
theorem claim_C1_archive_failure_blocks_clear (clearOk : Bool) (now : Int)
    (transcriptId sessionId : String) (store : Store) (db : TranscriptDB)
    (first : Message) (rest : List Message)
    (hhist : getSessionHistory sessionId store = first :: rest) :
    clearSessionHandler false clearOk now transcriptId sessionId store db
      = (store, db, .errorEvent "Failed to clear session") ∧
    deleteSessionRoute false clearOk now transcriptId sessionId store db
      = (store, db, .serverError "Error clearing session") ∧
    disconnectHandler false clearOk now transcriptId sessionId store db
      = (store, db) ∧
    cleanupSessionsHandler (fun _ => false) (fun _ => clearOk) (fun _ => transcriptId)
        now [sessionId] store db
      = (store, db, [(sessionId, false)]) ∧
    getSessionHistory sessionId
      (clearSessionHandler false clearOk now transcriptId sessionId store db).1
      = first :: rest := by
  have h1 : clearSessionHandler false clearOk now transcriptId sessionId store db
      = (store, db, .errorEvent "Failed to clear session") := by
    simp [clearSessionHandler, hhist, saveTranscript]
  refine ⟨h1, ?_, ?_, ?_, by rw [h1]; exact hhist⟩
  · simp [deleteSessionRoute, hhist, saveTranscript]
  · simp [disconnectHandler, hhist, saveTranscript]
  · simp [cleanupSessionsHandler, hhist, saveTranscript]

/-- Concrete run of C1: with the database down, terminating `S1` leaves its
single message readable and writes nothing, on every trigger site. -/
theorem claim_C1_witness :
    getSessionHistory "S1" demoStore = [msgHi] ∧
    (clearSessionHandler false true 5000 "T1" "S1" demoStore []
       = (demoStore, [], .errorEvent "Failed to clear session") ∧
     deleteSessionRoute false true 5000 "T1" "S1" demoStore []
       = (demoStore, [], .serverError "Error clearing session") ∧
     disconnectHandler false true 5000 "T1" "S1" demoStore [] = (demoStore, []) ∧
     cleanupSessionsHandler (fun _ => false) (fun _ => true) (fun _ => "T1")
         5000 ["S1"] demoStore []
       = (demoStore, [], [("S1", false)]) ∧
     getSessionHistory "S1"
       (clearSessionHandler false true 5000 "T1" "S1" demoStore []).1 = [msgHi]) :=
  ⟨by decide,
   claim_C1_archive_failure_blocks_clear true 5000 "T1" "S1" demoStore [] msgHi [] (by decide)⟩

/-- C6 counterexample: with the archive succeeding and the clear failing on a
non-empty `S1`, the `clear-session` handler emits the bare error event
`'Failed to clear session'` — byte-identical to what an archive failure emits
at the same input — so the trigger origin is told nothing of the archive
success and cannot tell the two failures apart. -/
theorem claim_C6_counterexample :
    (clearSessionHandler true false 5000 "T1" "S1" demoStore []).2.2
      = SocketClearResult.errorEvent "Failed to clear session" ∧
    (clearSessionHandler false false 5000 "T1" "S1" demoStore []).2.2
      = SocketClearResult.errorEvent "Failed to clear session" ∧
    (clearSessionHandler true false 5000 "T1" "S1" demoStore []).2.2
      = (clearSessionHandler false false 5000 "T1" "S1" demoStore []).2.2 := by
  decide

/-- C6 as amended: when the clear step fails after a successful archive, the
trigger origin receives the handler's single generic failure report (socket
error event `'Failed to clear session'`; HTTP 500 `'Error clearing session'`)
carrying no archive information — but the transcript row is durably written
and the ephemeral history remains readable. -/
theorem claim_C6_amended_clear_failure_generic_error (now : Int)
    (transcriptId sessionId : String) (store : Store) (db : TranscriptDB)
    (first : Message) (rest : List Message)
    (hhist : getSessionHistory sessionId store = first :: rest)
    (hfresh : db.any (fun r => r.session_id == sessionId) = false) :
    clearSessionHandler true false now transcriptId sessionId store db
      = (store,
         db ++ [transcriptRowOf sessionId (first :: rest) (some first.timestamp) now transcriptId],
         .errorEvent "Failed to clear session") ∧
    deleteSessionRoute true false now transcriptId sessionId store db
      = (store,
         db ++ [transcriptRowOf sessionId (first :: rest) (some first.timestamp) now transcriptId],
         .serverError "Error clearing session") ∧
    getSessionHistory sessionId
      (clearSessionHandler true false now transcriptId sessionId store db).1
      = first :: rest := by
  have hsave := saveTranscript_ok sessionId (first :: rest) (some first.timestamp)
    now transcriptId db hfresh
  have h1 : clearSessionHandler true false now transcriptId sessionId store db
      = (store,
         db ++ [transcriptRowOf sessionId (first :: rest) (some first.timestamp) now transcriptId],
         .errorEvent "Failed to clear session") := by
    simp [clearSessionHandler, hhist, hsave]
  refine ⟨h1, ?_, by rw [h1]; exact hhist⟩
  simp [deleteSessionRoute, hhist, hsave]

/-- Concrete run of the amended C6: archive up, clear down, one message in
`S1` — generic error out, row written, history still there. -/
theorem claim_C6_witness :
    getSessionHistory "S1" demoStore = [msgHi] ∧
    List.any ([] : TranscriptDB) (fun r => r.session_id == "S1") = false ∧
    (clearSessionHandler true false 5000 "T1" "S1" demoStore []
       = (demoStore, [] ++ [transcriptRowOf "S1" [msgHi] (some msgHi.timestamp) 5000 "T1"],
          .errorEvent "Failed to clear session") ∧
     deleteSessionRoute true false 5000 "T1" "S1" demoStore []
       = (demoStore, [] ++ [transcriptRowOf "S1" [msgHi] (some msgHi.timestamp) 5000 "T1"],
          .serverError "Error clearing session") ∧
     getSessionHistory "S1"
       (clearSessionHandler true false 5000 "T1" "S1" demoStore []).1 = [msgHi]) :=
  ⟨by decide, by decide,
   claim_C6_amended_clear_failure_generic_error 5000 "T1" "S1" demoStore [] msgHi []
     (by decide) (by decide)⟩

/-- C2: concrete lifecycle showing the code violating the claim. The first
termination of `S1` (one message) archives a row and clears the session; the
session id is then re-used (one new message) and terminated again. Because
`chat_sessions.session_id` carries a `UNIQUE` constraint, the second INSERT
fails with a unique-constraint error instead of creating a distinct row: the
second termination reports the generic failure, the transcript table still
holds only the first row, and the re-used history stays in the ephemeral
store. -/
theorem claim_C2_second_termination_errors :
    runC2first.2.2 = SocketClearResult.sessionCleared true (some "T1") 1 (some 4) ∧
    runC2second.2.2 = SocketClearResult.errorEvent "Failed to clear session" ∧
    runC2second.2.1 = runC2first.2.1 ∧
    getSessionHistory "S1" runC2second.1
      = [{ id := "m2", userQuery := "again", botResponse := "indeed", timestamp := 6000 }] ∧
    saveTranscript true "S1"
        [{ id := "m2", userQuery := "again", botResponse := "indeed", timestamp := 6000 }]
        (some 6000) 9000 "T2" runC2first.2.1
      = .error .uniqueViolation := by
  exact ⟨by decide, by decide, by decide, by decide, rfl⟩

/-- C7: whenever `saveTranscript` succeeds, the summary's `durationSeconds` is
the floor of `(endedAt - sessionStartTime) / 1000` (epoch milliseconds to
whole seconds); it is non-negative whenever the start time does not exceed the
end time (which holds at every call site, where the start is an earlier
message's timestamp); and with `startedAt` absent and an empty history the
start defaults to `endedAt`, giving duration 0. -/
theorem claim_C7_duration_floor (dbOk : Bool) (sessionId : String)
    (messages : List Message) (startedAt : Option Int) (endedAt : Int)
    (transcriptId : String) (db : TranscriptDB) (summary : TranscriptSummary)
    (db2 : TranscriptDB)
    (hok : saveTranscript dbOk sessionId messages startedAt endedAt transcriptId db
      = .ok (summary, db2)) :
    summary.durationSeconds
      = Int.fdiv (endedAt - sessionStartTimeOf startedAt messages endedAt) 1000 ∧
    (sessionStartTimeOf startedAt messages endedAt ≤ endedAt →
      0 ≤ summary.durationSeconds) ∧
    (startedAt = none → messages = [] → summary.durationSeconds = 0) := by
  have hsum : summary
      = transcriptSummaryOf sessionId messages startedAt endedAt transcriptId := by
    simp only [saveTranscript] at hok
    split at hok
    · exact absurd hok (by simp)
    · split at hok
      · exact absurd hok (by simp)
      · simp only [Except.ok.injEq, Prod.mk.injEq] at hok
        exact hok.1.symm
  refine ⟨?_, ?_, ?_⟩
  · rw [hsum]; rfl
  · intro h
    rw [hsum]
    show 0 ≤ durationSecondsOf startedAt messages endedAt
    exact Int.fdiv_nonneg (by omega) (by norm_num)
  · intro h1 h2
    subst h1; subst h2
    rw [hsum]
    show durationSecondsOf none [] endedAt = 0
    simp [durationSecondsOf, sessionStartTimeOf]

/-- Concrete run of C7: archiving one message stored at 1000 and ended at
5000 yields duration 4; the defaulted empty case yields duration 0. -/
theorem claim_C7_witness :
    saveTranscript true "S1" [msgHi] (some 1000) 5000 "T1" []
      = .ok (transcriptSummaryOf "S1" [msgHi] (some 1000) 5000 "T1",
             [] ++ [transcriptRowOf "S1" [msgHi] (some 1000) 5000 "T1"]) ∧
    ((transcriptSummaryOf "S1" [msgHi] (some 1000) 5000 "T1").durationSeconds
       = Int.fdiv (5000 - sessionStartTimeOf (some 1000) [msgHi] 5000) 1000 ∧
     (sessionStartTimeOf (some 1000) [msgHi] 5000 ≤ 5000 →
       0 ≤ (transcriptSummaryOf "S1" [msgHi] (some 1000) 5000 "T1").durationSeconds) ∧
     (some (1000 : Int) = none → [msgHi] = [] →
       (transcriptSummaryOf "S1" [msgHi] (some 1000) 5000 "T1").durationSeconds = 0)) ∧
    (transcriptSummaryOf "S1" [msgHi] (some 1000) 5000 "T1").durationSeconds = 4 :=
  ⟨rfl,
   claim_C7_duration_floor true "S1" [msgHi] (some 1000) 5000 "T1" []
     (transcriptSummaryOf "S1" [msgHi] (some 1000) 5000 "T1")
     ([] ++ [transcriptRowOf "S1" [msgHi] (some 1000) 5000 "T1"]) rfl,
   by decide⟩

/-- C8 counterexample: called directly with `limit = 101` (over the cap), the
archiver's `getAllTranscripts` performs the query and returns normally instead
of rejecting the call with an `InvalidArgument` error. -/
theorem claim_C8_counterexample :
    getAllTranscripts true 101 0 [] = .ok [] ∧
    getAllTranscripts true 101 0 [] ≠ .error .invalidArgument := by
  have h : getAllTranscripts true 101 0 [] = .ok [] := rfl
  exact ⟨h, by rw [h]; simp⟩

/-- C8 as amended: the 100-row cap is enforced only by the HTTP routing layer
— `GET /transcripts` answers 400 `'Limit cannot exceed 100'` for any limit
over 100 without reaching the archiver — while `getAllTranscripts` itself
accepts any limit and, with the database reachable, always returns a page
rather than an `InvalidArgument` error. -/
theorem claim_C8_amended_cap_only_in_route (dbOk : Bool) (limit offset : Nat)
    (db : TranscriptDB) (h : 100 < limit) :
    getTranscriptsRoute dbOk limit offset db = .badRequest "Limit cannot exceed 100" ∧
    (getAllTranscripts true limit offset db).isOk = true := by
  constructor
  · simp [getTranscriptsRoute, h]
  · simp [getAllTranscripts, Except.isOk, Except.toBool]

/-- Concrete run of the amended C8 at `limit = 101`. -/
theorem claim_C8_witness :
    100 < 101 ∧
    (getTranscriptsRoute true 101 0 [] = .badRequest "Limit cannot exceed 100" ∧
     (getAllTranscripts true 101 0 []).isOk = true) :=
  ⟨by decide, claim_C8_amended_cap_only_in_route true 101 0 [] (by decide)⟩

/-- C9: bulk cleanup runs the single-session protocol once per requested id,
in order, and never aborts: whatever the per-id archive/clear outcomes, every
id in the request is processed (first conjunct). Moreover, in the spec's
two-session scenario where the first id's archive write fails while the
second id (a different session with empty history) clears fine, the second id
is still processed and cleared, and the first id's history is untouched
(second conjunct). -/
theorem claim_C9_bulk_isolated (dbOk clearOk : String → Bool)
    (tid : String → String) (now : Int) (sessions : List String)
    (store : Store) (db : TranscriptDB) :
    ((cleanupSessionsHandler dbOk clearOk tid now sessions store db).2.2).map Prod.fst
      = sessions ∧
    (∀ s1 s2 : String, dbOk s1 = false → getSessionHistory s1 store ≠ [] →
      getSessionHistory s2 store = [] → clearOk s2 = true → s1 ≠ s2 →
      ((cleanupSessionsHandler dbOk clearOk tid now [s1, s2] store db).2.2
         = [(s1, false), (s2, true)] ∧
       getSessionHistory s2
         (cleanupSessionsHandler dbOk clearOk tid now [s1, s2] store db).1 = [] ∧
       getSessionHistory s1
         (cleanupSessionsHandler dbOk clearOk tid now [s1, s2] store db).1
         = getSessionHistory s1 store)) := by
  constructor
  · induction sessions generalizing store db with
    | nil => rfl
    | cons s rest ih => simp [cleanupSessionsHandler, ih]
  · intro s1 s2 hfail hne1 hemp2 hclear2 hne
    obtain ⟨first, tail, hft⟩ := List.exists_cons_of_ne_nil hne1
    have hrun : cleanupSessionsHandler dbOk clearOk tid now [s1, s2] store db
        = (clearSession s2 store, db, [(s1, false), (s2, true)]) := by
      simp [cleanupSessionsHandler, hft, hfail, saveTranscript, hemp2, hclear2]
    refine ⟨by rw [hrun], by rw [hrun]; exact getSessionHistory_clearSession s2 store, ?_⟩
    rw [hrun]
    exact getSessionHistory_clearSession_other s1 s2 store hne

/-- Concrete run of C9: cleanup over `["S1", "S2"]` where the archive for `S1`
fails and `S2` is empty — both ids are processed, `S2` is cleared, and `S1`'s
history survives. -/
theorem claim_C9_witness :
    demoDbOk "S1" = false ∧
    getSessionHistory "S1" demoStore ≠ [] ∧
    getSessionHistory "S2" demoStore = [] ∧
    ((cleanupSessionsHandler demoDbOk (fun _ => true) demoTid 9000 ["S1", "S2"]
        demoStore []).2.2).map Prod.fst = ["S1", "S2"] ∧
    ((cleanupSessionsHandler demoDbOk (fun _ => true) demoTid 9000 ["S1", "S2"]
        demoStore []).2.2 = [("S1", false), ("S2", true)] ∧
     getSessionHistory "S2"
       (cleanupSessionsHandler demoDbOk (fun _ => true) demoTid 9000 ["S1", "S2"]
          demoStore []).1 = [] ∧
     getSessionHistory "S1"
       (cleanupSessionsHandler demoDbOk (fun _ => true) demoTid 9000 ["S1", "S2"]
          demoStore []).1 = getSessionHistory "S1" demoStore) :=
  ⟨by decide, by decide, by decide,
   (claim_C9_bulk_isolated demoDbOk (fun _ => true) demoTid 9000 ["S1", "S2"]
      demoStore []).1,
   (claim_C9_bulk_isolated demoDbOk (fun _ => true) demoTid 9000 ["S1", "S2"]
      demoStore []).2 "S1" "S2" (by decide) (by decide) (by decide) (by decide)
      (by decide)⟩

/-- C10: `saveTranscript` does not short-circuit on an empty message
sequence: with the database reachable and a fresh session id it still inserts
one row, with `message_count = 0`, `total_characters = 0`, `started_at`
defaulted to `endedAt`, and `duration_seconds = 0` — the non-empty
precondition is enforced only by the callers. -/
theorem claim_C10_empty_messages_still_insert (sessionId : String)
    (endedAt : Int) (transcriptId : String) (db : TranscriptDB)
    (hfresh : db.any (fun r => r.session_id == sessionId) = false) :
    saveTranscript true sessionId [] none endedAt transcriptId db
      = .ok ({ transcriptId := transcriptId, sessionId := sessionId,
               messageCount := 0, totalCharacters := 0, durationSeconds := 0,
               savedAt := endedAt },
             db ++ [{ id := transcriptId, session_id := sessionId,
                      user_messages := [], bot_responses := [],
                      message_count := 0, started_at := endedAt,
                      ended_at := endedAt, duration_seconds := 0,
                      total_characters := 0 }]) := by
  rw [saveTranscript_ok sessionId [] none endedAt transcriptId db hfresh]
  simp [transcriptSummaryOf, transcriptRowOf, totalCharactersOf,
    durationSecondsOf, sessionStartTimeOf]

/-- Concrete run of C10: archiving the empty history of the fresh session
`S7` at time 42 inserts a zeroed row with `started_at = ended_at = 42`. -/
theorem claim_C10_witness :
    List.any ([] : TranscriptDB) (fun r => r.session_id == "S7") = false ∧
    saveTranscript true "S7" [] none 42 "T7" []
      = .ok ({ transcriptId := "T7", sessionId := "S7", messageCount := 0,
               totalCharacters := 0, durationSeconds := 0, savedAt := 42 },
             [] ++ [{ id := "T7", session_id := "S7", user_messages := [],
                      bot_responses := [], message_count := 0, started_at := 42,
                      ended_at := 42, duration_seconds := 0,
                      total_characters := 0 }]) :=
  ⟨by decide, claim_C10_empty_messages_still_insert "S7" 42 "T7" [] (by decide)⟩

end VooshRAG
